import Mathlib

/-!
# Verification of the RadiusRumble server core

Shallow embedding of the Go server (hub, shared collections, spawn
placement, the `Connected` and `InGame` state handlers) and proofs of the
specified properties.

Conventions of the embedding:
* Go `float64` values (coordinates, radii, buffers) are modelled as exact
  rationals `ℚ`; comparisons and arithmetic mirror the source expressions.
* `math.Pi * r * r` and `math.Sqrt(mass / math.Pi)` involve the irrational
  constant π and a square root, so the two conversions `radiusToMass` /
  `massToRadius` are kept as abstract parameters (a `MassModel`); every
  property about them concerns only their composition and comparisons,
  which the handlers compute uniformly in the two functions.
* Go maps (`map[uint64]T`) are modelled as association lists with
  insert-or-replace semantics; `uint64` ids are modelled as `Nat` (no
  arithmetic close to 2^64 occurs on ids: they are only compared).
* Handlers that mutate fields and emit messages are modelled as functions
  returning a result record holding the post-state and the emitted
  messages.
-/

namespace RadiusRumble

/-! ## SharedCollection (objects/sharedCollection.go)

`SharedCollection[T]` wraps `objectsMap map[uint64]T` and `nextId uint64`
(started at 1 by `NewSharedCollection`). The mutex only serialises the
operations; the sequential semantics is captured here.
-/

/-- The `objectsMap` of a `SharedCollection`, as an association list with
insert-or-replace semantics (a Go map). `nextId` is the auto-id counter. -/
structure SharedCollection (T : Type) where
  objectsMap : List (Nat × T)
  nextId : Nat
  deriving Repr

/-- `NewSharedCollection` : empty map, `nextId: 1`. (The optional capacity
argument only pre-sizes the map and has no semantic effect.) -/
def NewSharedCollection (T : Type) : SharedCollection T :=
  { objectsMap := [], nextId := 1 }

/-- The modulus of the source's `uint64` values: `nextId++` wraps at 2^64. -/
def uint64Mod : Nat := 2 ^ 64

/-- `Add(obj, id...)` : uses the given id if provided, otherwise `nextId`;
stores `obj` under that id (overwriting any existing entry, as a Go map
assignment does), increments `nextId` unconditionally (a `uint64`
increment, so it wraps at 2^64), and returns the id used. Result is
`(collection after, returned id)`. -/
def SharedCollection.Add (c : SharedCollection T) (obj : T) (id : Option Nat) :
    SharedCollection T × Nat :=
  let thisId := match id with
    | some i => i
    | none => c.nextId
  ({ objectsMap := (thisId, obj) :: c.objectsMap.filter (fun p => p.1 ≠ thisId),
     nextId := (c.nextId + 1) % uint64Mod }, thisId)

/-- `Remove(id)` : `delete(collection.objectsMap, id)` — removes the entry
if present, no-op otherwise. -/
def SharedCollection.Remove (c : SharedCollection T) (id : Nat) : SharedCollection T :=
  { objectsMap := c.objectsMap.filter (fun p => p.1 ≠ id), nextId := c.nextId }

/-- `Get(id)` : returns `(obj, found)`; modelled as `Option T`
(`some obj` when found, `none` otherwise). -/
def SharedCollection.Get (c : SharedCollection T) (id : Nat) : Option T :=
  (c.objectsMap.find? (fun p => p.1 = id)).map Prod.snd

/-- A single mutating operation on a shared collection, used to describe
the states reachable from `NewSharedCollection`. -/
inductive CollectionOp (T : Type) where
  | add (obj : T) (id : Option Nat)
  | remove (id : Nat)

def applyOp (c : SharedCollection T) : CollectionOp T → SharedCollection T
  | .add obj id => (c.Add obj id).1
  | .remove id => c.Remove id

def applyOps (ops : List (CollectionOp T)) (c : SharedCollection T) : SharedCollection T :=
  ops.foldl applyOp c

def isAddOp : CollectionOp T → Bool
  | .add _ _ => true
  | .remove _ => false

/-- The number of `Add` operations in a sequence — each one increments the
wrapping `nextId` counter. -/
def countAdds (ops : List (CollectionOp T)) : Nat :=
  ops.countP isAddOp

/-- A concrete operation sequence (two adds, one remove) for closed
evaluations of reachable collections. -/
def testOps : List (CollectionOp Nat) :=
  [CollectionOp.add 0 none, CollectionOp.remove 1, CollectionOp.add 0 (some 5)]

/-! ### Basic lemmas about the collection -/

/-! ## Game objects (objects/player.go, objects/spore.go)

Coordinates, radii and speeds are `float64` in the source; they are
modelled as exact rationals. -/

structure Player where
  name : String
  x : ℚ
  y : ℚ
  radius : ℚ
  direction : ℚ
  speed : ℚ
  deriving Repr

structure Spore where
  x : ℚ
  y : ℚ
  radius : ℚ
  deriving Repr

/-! ## Mass model (states/ingame.go)

`radiusToMass(r) = math.Pi * r * r` and `massToRadius(m) = math.Sqrt(m / math.Pi)`
use the irrational constant π and a square root, which have no computable
exact model; the handlers below are parameterised by the two conversions,
which they only ever compose and compare. -/

structure MassModel where
  radiusToMass : ℚ → ℚ
  massToRadius : ℚ → ℚ

/-- `nextRadius(massDiff)` : `massToRadius(radiusToMass(player.Radius) + massDiff)`. -/
def nextRadius (mm : MassModel) (playerRadius massDiff : ℚ) : ℚ :=
  mm.massToRadius (mm.radiusToMass playerRadius + massDiff)

/-! ## Proximity validation (states/ingame.go, validatePlayerCloseToObject) -/

/-- `validatePlayerCloseToObject(objX, objY, objRadius, buffer)` : errors when
`realDistSq > thresholdDistSq` with `thresholdDist = player.Radius + buffer + objRadius`,
succeeds otherwise. -/
def validatePlayerCloseToObject (player : Player) (objX objY objRadius buffer : ℚ) :
    Except String Unit :=
  let realDX := player.x - objX
  let realDY := player.y - objY
  let realDistSq := realDX * realDX + realDY * realDY
  let thresholdDist := player.radius + buffer + objRadius
  let thresholdDistSq := thresholdDist * thresholdDist
  if realDistSq > thresholdDistSq then
    Except.error "Player is too far from the object"
  else
    Except.ok ()

/-! ## InGame consumption handlers (states/ingame.go)

A handler's observable behaviour is the post-state of the fields it may
mutate plus the messages it emits. `sends` are `SocketSendAs(msg, senderId)`
relays to the own socket; `broadcasts` go to the hub fan-out. -/

/-- The `SporeConsumed` packet: the spore id claimed, and the `NewRadius`
field the server stamps before broadcasting. -/
structure SporeConsumedMsg where
  sporeId : Nat
  newRadius : ℚ
  deriving Repr

structure SporeConsumedResult where
  player : Player
  spores : SharedCollection Spore
  sends : List (Nat × SporeConsumedMsg)
  broadcasts : List SporeConsumedMsg
  deriving Repr

/-- `handleSporeConsumed(senderId, message)`.
Not self-originated: relay via `SocketSendAs` and return. Self-originated:
look the spore up by the claimed id; validate proximity with buffer 10; on
success set `player.Radius = nextRadius(radiusToMass(spore.Radius))`,
remove from the spore collection — the source removes the entry keyed by
`senderId`, not by `sporeId` — stamp `NewRadius` and broadcast. On any
validation failure: log only (no observable output). -/
def handleSporeConsumed (mm : MassModel) (clientId : Nat) (player : Player)
    (spores : SharedCollection Spore) (senderId : Nat) (message : SporeConsumedMsg) :
    SporeConsumedResult :=
  if senderId ≠ clientId then
    { player := player, spores := spores, sends := [(senderId, message)], broadcasts := [] }
  else
    match spores.Get message.sporeId with
    | none =>
        { player := player, spores := spores, sends := [], broadcasts := [] }
    | some spore =>
        match validatePlayerCloseToObject player spore.x spore.y spore.radius 10 with
        | Except.error _ =>
            { player := player, spores := spores, sends := [], broadcasts := [] }
        | Except.ok _ =>
            let sporeMass := mm.radiusToMass spore.radius
            let newRadius := nextRadius mm player.radius sporeMass
            { player := { player with radius := newRadius },
              spores := spores.Remove senderId,
              sends := [],
              broadcasts := [{ message with newRadius := newRadius }] }

/-- The `PlayerConsumed` packet: the victim player id and the stamped
`NewRadius`. -/
structure PlayerConsumedMsg where
  playerId : Nat
  newRadius : ℚ
  deriving Repr

structure PlayerConsumedResult where
  player : Player
  players : SharedCollection Player
  sends : List (Nat × PlayerConsumedMsg)
  broadcasts : List PlayerConsumedMsg
  respawn : Bool
  deriving Repr

/-- `handlePlayerConsumed(senderId, message)`.
Not self-originated: relay, and if the victim is this session's own player,
respawn. Self-originated: look the victim up; require
`ourMass > otherMass * 1.5` (the source drops the claim when
`ourMass <= otherMass*1.5`); validate proximity with buffer 10; on success
set `player.Radius = nextRadius(otherMass)`, remove the victim from the
player collection, stamp `NewRadius` and broadcast. -/
def handlePlayerConsumed (mm : MassModel) (clientId : Nat) (player : Player)
    (players : SharedCollection Player) (senderId : Nat) (message : PlayerConsumedMsg) :
    PlayerConsumedResult :=
  if senderId ≠ clientId then
    { player := player, players := players, sends := [(senderId, message)],
      broadcasts := [], respawn := message.playerId = clientId }
  else
    match players.Get message.playerId with
    | none =>
        { player := player, players := players, sends := [], broadcasts := [],
          respawn := false }
    | some other =>
        let ourMass := mm.radiusToMass player.radius
        let otherMass := mm.radiusToMass other.radius
        if ourMass ≤ otherMass * (3 / 2) then
          { player := player, players := players, sends := [], broadcasts := [],
            respawn := false }
        else
          match validatePlayerCloseToObject player other.x other.y other.radius 10 with
          | Except.error _ =>
              { player := player, players := players, sends := [], broadcasts := [],
                respawn := false }
          | Except.ok _ =>
              let newRadius := nextRadius mm player.radius otherMass
              { player := { player with radius := newRadius },
                players := players.Remove message.playerId,
                sends := [],
                broadcasts := [{ message with newRadius := newRadius }],
                respawn := false }

/-! ## Spawn placement (objects/coords.go)

`isTooClose` iterates the avoid-collection with `ForEach` (a read-only
snapshot traversal) and flags any circle with
`distSq <= (radius + objRad)*(radius + objRad)`. `SpawnCoords` rejection-samples
candidates `x, y = bound * (2*rand.Float64() - 1)`; after 25 consecutive
rejections the bound doubles and the counter resets. The random source is
modelled as a stream `draws : Nat → ℚ` of the successive `rand.Float64()`
results, and the unbounded retry loop by an explicit fuel. -/

/-- `getPlayerPosition` / `getPlayerRadius` accessors. -/
def getPlayerPosition (player : Player) : ℚ × ℚ := (player.x, player.y)

def getPlayerRadius (player : Player) : ℚ := player.radius

def getSporePosition (spore : Spore) : ℚ × ℚ := (spore.x, spore.y)

def getSporeRadius (spore : Spore) : ℚ := spore.radius

/-- `isTooClose(x, y, radius, objects, getPosition, getRadius)` : `false` on a
nil collection; otherwise true iff some entry of the collection satisfies
`distSq <= (radius + objRad)²`. -/
def isTooClose (x y radius : ℚ) (objects : Option (SharedCollection T))
    (getPosition : T → ℚ × ℚ) (getRadius : T → ℚ) : Bool :=
  match objects with
  | none => false
  | some c =>
      c.objectsMap.any (fun p =>
        let objX := (getPosition p.2).1
        let objY := (getPosition p.2).2
        let objRad := getRadius p.2
        let xDist := objX - x
        let yDist := objY - y
        let distSq := xDist * xDist + yDist * yDist
        distSq ≤ (radius + objRad) * (radius + objRad))

/-- The retry loop of `SpawnCoords`. `drawIdx` indexes the next unread value
of the random stream (each iteration reads two), `bound` and `tries` are the
loop state, `fuel` bounds the number of iterations (the source loop is
unbounded; every property proved below holds for whatever value is
returned, for any fuel). -/
def spawnCoordsLoop (draws : Nat → ℚ) (radius : ℚ)
    (playersToAvoid : Option (SharedCollection Player))
    (sporesToAvoid : Option (SharedCollection Spore)) :
    Nat → Nat → ℚ → Nat → Option (ℚ × ℚ)
  | 0, _, _, _ => none
  | fuel + 1, drawIdx, bound, tries =>
      let x := bound * (2 * draws drawIdx - 1)
      let y := bound * (2 * draws (drawIdx + 1) - 1)
      let closeToPlayer := isTooClose x y radius playersToAvoid getPlayerPosition getPlayerRadius
      let closeToSpore := isTooClose x y radius sporesToAvoid getSporePosition getSporeRadius
      if ¬closeToPlayer ∧ ¬closeToSpore then
        some (x, y)
      else if tries + 1 ≥ 25 then
        spawnCoordsLoop draws radius playersToAvoid sporesToAvoid fuel (drawIdx + 2) (bound * 2) 0
      else
        spawnCoordsLoop draws radius playersToAvoid sporesToAvoid fuel (drawIdx + 2) bound (tries + 1)

/-- `SpawnCoords(radius, playersToAvoid, sporesToAvoid)` : starts the loop
with `bound = 3000.0` and `tries = 0`. -/
def SpawnCoords (fuel : Nat) (draws : Nat → ℚ) (radius : ℚ)
    (playersToAvoid : Option (SharedCollection Player))
    (sporesToAvoid : Option (SharedCollection Spore)) : Option (ℚ × ℚ) :=
  spawnCoordsLoop draws radius playersToAvoid sporesToAvoid fuel 0 3000 0

/-! ## Connected state (states/connected.go)

The handlers' effects: messages enqueued to the own socket
(`SocketSend`), and the credential-store calls they make. The store, the
`.env` load and the bcrypt primitives are external collaborators, modelled
as oracles in a `CredentialWorld`. -/

/-- `len(s)` on a Go string: the number of UTF-8 bytes. -/
def byteLen (s : String) : Nat :=
  s.data.foldl (fun n c => n + c.utf8Size) 0

/-- `unicode.IsSpace` (Go), the set `strings.TrimSpace` trims: `'\t'`,
`'\n'`, vertical tab, form feed, `'\r'`, space, NEL (U+0085), NBSP
(U+00A0), and the Unicode space separators (U+1680, U+2000–U+200A, U+2028,
U+2029, U+202F, U+205F, U+3000). -/
def isSpaceGo (c : Char) : Bool :=
  let v := c.val.toNat
  v = 9 || v = 10 || v = 11 || v = 12 || v = 13 || v = 32 ||
    v = 0x85 || v = 0xA0 || v = 0x1680 || (0x2000 ≤ v && v ≤ 0x200A) ||
    v = 0x2028 || v = 0x2029 || v = 0x202F || v = 0x205F || v = 0x3000

/-- `strings.ToLower` : lowercases every character. (Lean's `Char.toLower`
covers the ASCII fragment of Go's Unicode mapping; no property proved here
depends on the mapping — lookup keys are produced by the one function
consistently and the lookup itself is an oracle.) -/
def toLowerStr (s : String) : String :=
  ⟨s.data.map Char.toLower⟩

/-- `strings.TrimSpace` : removes leading and trailing `unicode.IsSpace`
characters. -/
def trimStr (s : String) : String :=
  ⟨((s.data.dropWhile isSpaceGo).reverse.dropWhile isSpaceGo).reverse⟩

/-- A stored credential record (`db.User`): the relevant field is the
stored password hash. -/
structure StoredUser where
  password : String
  deriving Repr, DecidableEq

/-- Outbound response messages relevant to the Connected state. -/
inductive Msg where
  | denyResponse (reason : String)
  | okResponse
  deriving Repr, DecidableEq

/-- Observable effects of a Connected-state handler: a socket send, a
credential lookup (`GetUserByUsername`), or a user creation (`CreateUser`). -/
inductive Effect where
  | send (m : Msg)
  | dbGetUser (name : String)
  | dbCreateUser (name passwordHash : String)
  deriving Repr, DecidableEq

/-- The socket sends among a list of effects. -/
def effectSends (effects : List Effect) : List Msg :=
  effects.filterMap (fun e =>
    match e with
    | .send m => some m
    | _ => none)

/-- External collaborators of the Connected state:
`getUserByUsername` (`none` models a lookup error, in particular unknown
user), `envLoadOk` (`godotenv.Load` outcome), `pepper` (`os.Getenv("PEPPER")`),
`verify hash pw` (`bcrypt.CompareHashAndPassword` verdict), `hashOk` /
`hashOf` (`bcrypt.GenerateFromPassword` outcome), and `createOk`
(`queries.CreateUser` outcome). -/
structure CredentialWorld where
  getUserByUsername : String → Option StoredUser
  envLoadOk : Bool
  pepper : String
  verify : String → String → Bool
  hashOk : Bool
  hashOf : String → String
  createOk : Bool

/-- `handleLoginRequest(senderId, message)` : ignores messages whose sender
is not the own client; otherwise looks the user up by lowercased username,
loads the environment, verifies `password + pepper` against the stored
hash; each of the three failures sends the one generic deny, success sends
an ok response. -/
def handleLoginRequest (world : CredentialWorld) (clientId senderId : Nat)
    (username password : String) : List Effect :=
  if senderId ≠ clientId then
    []
  else
    let genericFailMessage := Msg.denyResponse "Incorrect username or password"
    Effect.dbGetUser (toLowerStr username) ::
      match world.getUserByUsername (toLowerStr username) with
      | none => [Effect.send genericFailMessage]
      | some user =>
          if ¬world.envLoadOk then
            [Effect.send genericFailMessage]
          else
            let passwordWithPepper := password ++ world.pepper
            if ¬world.verify user.password passwordWithPepper then
              [Effect.send genericFailMessage]
            else
              [Effect.send Msg.okResponse]

/-- `validateUserName` : `empty` when the byte length is ≤ 0, `too long`
when the byte length exceeds 20 (Go `len()` counts UTF-8 bytes), `leading
or trailing whitespaces` when the name differs from its trim. -/
def validateUserName (username : String) : Except String Unit :=
  if byteLen username ≤ 0 then
    Except.error "empty"
  else if byteLen username > 20 then
    Except.error "too long"
  else if username ≠ (trimStr username) then
    Except.error "leading or trailing whitespaces"
  else
    Except.ok ()

/-- `validatePassword` : `passwords do not match` on a confirmation
mismatch, `too short` when the byte length is below 8 (Go `len()` counts
UTF-8 bytes). -/
def validatePassword (password passwordConfirmation : String) : Except String Unit :=
  if password ≠ passwordConfirmation then
    Except.error "passwords do not match"
  else if byteLen password < 8 then
    Except.error "too short"
  else
    Except.ok ()

/-- The generic registration failure response. -/
def genericRegisterFail : Msg :=
  Msg.denyResponse "Failed to register user (internal server error) - please try again later"

/-- `handleRegisterRequest(senderId, message)` : ignores messages whose
sender is not the own client; validates the username then the password,
denying with the specific reason; denies `User already exists` when the
lookup by lowercased username succeeds; then env-load, hash and
`CreateUser` failures each deny generically; otherwise creates the user
and sends an ok response. -/
def handleRegisterRequest (world : CredentialWorld) (clientId senderId : Nat)
    (username password passwordConfirmation : String) : List Effect :=
  if senderId ≠ clientId then
    []
  else
    match validateUserName username with
    | Except.error e => [Effect.send (Msg.denyResponse ("Invalid username: " ++ e))]
    | Except.ok _ =>
        match validatePassword password passwordConfirmation with
        | Except.error e => [Effect.send (Msg.denyResponse ("Invalid password: " ++ e))]
        | Except.ok _ =>
            Effect.dbGetUser (toLowerStr username) ::
              if (world.getUserByUsername (toLowerStr username)).isSome then
                [Effect.send (Msg.denyResponse "User already exists")]
              else if ¬world.envLoadOk then
                [Effect.send genericRegisterFail]
              else if ¬world.hashOk then
                [Effect.send genericRegisterFail]
              else
                let passwordHash := world.hashOf (password ++ world.pepper)
                Effect.dbCreateUser (toLowerStr username) passwordHash ::
                  if ¬world.createOk then
                    [Effect.send genericRegisterFail]
                  else
                    [Effect.send Msg.okResponse]

/-- A concrete credential world used to evaluate the handlers on closed
inputs: the store knows the single user `alice` with stored hash `H`, the
environment loads, the verifier accepts exactly (`H`, `secret99` + pepper),
hashing and persistence succeed. -/
def testWorld : CredentialWorld where
  getUserByUsername := fun name => if name = "alice" then some { password := "H" } else none
  envLoadOk := true
  pepper := "pep"
  verify := fun hash pw => hash == "H" && pw == "secret99" ++ "pep"
  hashOk := true
  hashOf := fun s => s
  createOk := true

/-- A concrete mass model used only to evaluate the handlers on closed
inputs (`r ↦ r·r`, `m ↦ m`); the claim theorems hold for every model. -/
def testMassModel : MassModel where
  radiusToMass := fun r => r * r
  massToRadius := fun m => m

/-- A concrete target player (radius 2 at the origin) for closed
evaluations. -/
def testTarget : Player :=
  { name := "b", x := 0, y := 0, radius := 2, direction := 0, speed := 15 }

/-- A concrete player collection holding `testTarget` under id 2. -/
def testPlayers : SharedCollection Player :=
  ((NewSharedCollection Player).Add testTarget (some 2)).1

/-- A concrete avoid-collection for closed evaluations of `SpawnCoords`:
one player of radius 1 at (100, 100) under id 1. -/
def testAvoidPlayers : SharedCollection Player :=
  ((NewSharedCollection Player).Add
    { name := "c", x := 100, y := 100, radius := 1, direction := 0, speed := 15 } (some 1)).1

/-- A concrete random stream for closed evaluations: every `rand.Float64()`
result is 1/2, so every candidate coordinate is `bound * 0 = 0`. -/
def testDraws : Nat → ℚ := fun _ => 1 / 2

theorem get_add_same (c : SharedCollection T) (obj : T) (i : Nat) :
    ((c.Add obj (some i)).1).Get i = some obj := by
  simp [SharedCollection.Add, SharedCollection.Get, List.find?]

theorem get_add_auto (c : SharedCollection T) (obj : T) :
    ((c.Add obj none).1).Get c.nextId = some obj := by
  simp [SharedCollection.Add, SharedCollection.Get, List.find?]

theorem get_remove_same (c : SharedCollection T) (i : Nat) :
    (c.Remove i).Get i = none := by
  simp only [SharedCollection.Remove, SharedCollection.Get, Option.map_eq_none',
    List.find?_eq_none]
  intro x hx
  rcases List.mem_filter.mp hx with ⟨-, hne⟩
  simpa using hne

theorem remove_absent (c : SharedCollection T) (i : Nat) (h : c.Get i = none) :
    c.Remove i = c := by
  rcases c with ⟨l, n⟩
  simp only [SharedCollection.Get, Option.map_eq_none', List.find?_eq_none] at h
  simp only [SharedCollection.Remove, SharedCollection.mk.injEq, and_true]
  rw [List.filter_eq_self]
  intro a ha
  simpa using h a ha

theorem uint64Mod_pos : 0 < uint64Mod := by
  unfold uint64Mod
  positivity

theorem nextId_applyOps (ops : List (CollectionOp T)) (c : SharedCollection T)
    (h : c.nextId < uint64Mod) :
    (applyOps ops c).nextId = (c.nextId + countAdds ops) % uint64Mod := by
  induction ops generalizing c with
  | nil => simp [applyOps, countAdds, Nat.mod_eq_of_lt h]
  | cons op ops ih =>
      have hstep : applyOps (op :: ops) c = applyOps ops (applyOp c op) := by
        simp [applyOps, List.foldl_cons]
      cases op with
      | add obj i =>
          have hlt : (applyOp c (CollectionOp.add obj i)).nextId < uint64Mod := by
            simp only [applyOp, SharedCollection.Add]
            exact Nat.mod_lt _ uint64Mod_pos
          rw [hstep, ih _ hlt]
          have hcount : countAdds (CollectionOp.add obj i :: ops) = countAdds ops + 1 := by
            simp [countAdds, List.countP_cons, isAddOp]
          simp only [applyOp, SharedCollection.Add]
          rw [Nat.mod_add_mod, hcount]
          congr 1
          ring
      | remove i =>
          have hlt : (applyOp c (CollectionOp.remove i)).nextId < uint64Mod := h
          rw [hstep, ih _ hlt]
          simp [applyOp, SharedCollection.Remove, countAdds, List.countP_cons, isAddOp]

theorem add_auto_snd (c : SharedCollection T) (obj : T) :
    (c.Add obj none).2 = c.nextId :=
  rfl

theorem countAdds_replicate (n : Nat) (obj : T) (i : Option Nat) :
    countAdds (List.replicate n (CollectionOp.add obj i)) = n := by
  induction n with
  | zero => simp [countAdds]
  | succ n ih =>
      simp [List.replicate_succ, countAdds, List.countP_cons, isAddOp] at ih ⊢
      omega

theorem nextId_reachable (ops : List (CollectionOp T)) :
    (applyOps ops (NewSharedCollection T)).nextId = (1 + countAdds ops) % uint64Mod :=
  nextId_applyOps ops (NewSharedCollection T) (by unfold NewSharedCollection uint64Mod; norm_num)

theorem spawnCoordsLoop_not_tooClose (draws : Nat → ℚ) (radius : ℚ)
    (playersToAvoid : Option (SharedCollection Player))
    (sporesToAvoid : Option (SharedCollection Spore))
    (fuel drawIdx : Nat) (bound : ℚ) (tries : Nat) (x y : ℚ)
    (h : spawnCoordsLoop draws radius playersToAvoid sporesToAvoid fuel drawIdx bound tries =
      some (x, y)) :
    isTooClose x y radius playersToAvoid getPlayerPosition getPlayerRadius = false ∧
    isTooClose x y radius sporesToAvoid getSporePosition getSporeRadius = false := by
  induction fuel generalizing drawIdx bound tries with
  | zero => simp [spawnCoordsLoop] at h
  | succ fuel ih =>
      rw [spawnCoordsLoop] at h
      split at h
      · next hcond =>
          obtain ⟨hx, hy⟩ := Prod.mk.injEq .. ▸ (Option.some.inj h)
          subst hx
          subst hy
          exact ⟨Bool.not_eq_true _ ▸ hcond.1, Bool.not_eq_true _ ▸ hcond.2⟩
      · split at h
        · exact ih _ _ _ h
        · exact ih _ _ _ h

theorem any_eq_false_forall (l : List α) (p : α → Bool) (h : l.any p = false) :
    ∀ a ∈ l, p a = false := by
  intro a ha
  have := List.any_eq_false.mp h a ha
  simpa using this

/-! ## The claims -/

/-- Claim C5: on any Shared Collection, `Get(id)` immediately after
`Add(value, id)` returns the added value as found; `Get(id)` immediately
after `Remove(id)` reports not-found; and `Remove(id)` on an id not present
is a no-op that leaves the collection unchanged (and, being total, never
errors). -/
theorem claim_C5 (T : Type) (c : SharedCollection T) (obj : T) (i : Nat) :
    ((c.Add obj (some i)).1).Get i = some obj ∧
    (c.Remove i).Get i = none ∧
    (c.Get i = none → c.Remove i = c) :=
  ⟨get_add_same c obj i, get_remove_same c i, remove_absent c i⟩

/-- Witness for C5 at a concrete collection: id 7 is absent from the fresh
collection and removing it changes nothing. -/
theorem claim_C5_witness :
    (NewSharedCollection Nat).Get 7 = none ∧
    ((((NewSharedCollection Nat).Add 42 (some 7)).1).Get 7 = some 42 ∧
      ((NewSharedCollection Nat).Remove 7).Get 7 = none ∧
      (NewSharedCollection Nat).Remove 7 = NewSharedCollection Nat) :=
  ⟨rfl,
    (claim_C5 Nat (NewSharedCollection Nat) 42 7).1,
    (claim_C5 Nat (NewSharedCollection Nat) 42 7).2.1,
    (claim_C5 Nat (NewSharedCollection Nat) 42 7).2.2 rfl⟩

/-- Counterexample to C6 as stated: the `nextId` counter is a `uint64`, so
after 2^64 − 1 `Add` operations on a fresh collection it has wrapped around
to 0 and the next auto-assigning `Add` returns 0 — the auto-assigned id is
not always nonzero. -/
theorem claim_C6_counterexample :
    ((applyOps (List.replicate (uint64Mod - 1) (CollectionOp.add (0 : Nat) none))
        (NewSharedCollection Nat)).Add 0 none).2 = 0 := by
  rw [add_auto_snd, nextId_reachable, countAdds_replicate]
  have hpos : 0 < uint64Mod := uint64Mod_pos
  have h1 : 1 + (uint64Mod - 1) = uint64Mod := by omega
  rw [h1, Nat.mod_self]

/-- Claim C6 (amended for the `uint64` wrap of `nextId`): `Add` with an
explicit id returns that id; `Add` without one returns the collection's
auto-id counter, which starts at 1 on a fresh collection and is incremented
modulo 2^64 on every `Add`; and on any collection reachable from
`NewSharedCollection` by fewer than 2^64 − 1 `Add` operations (any number
of `Remove`s) — in particular the hub's session registry, whose
registration path runs `client.Initialize(hub.Clients.Add(client))` — the
auto-assigned id is never 0, so id 0 stays reserved for the
broadcast/system origin until the counter wraps. -/
theorem claim_C6 (T : Type) (ops : List (CollectionOp T)) (obj : T) (i : Nat) (oid : Option Nat) :
    ((applyOps ops (NewSharedCollection T)).Add obj (some i)).2 = i ∧
    ((applyOps ops (NewSharedCollection T)).Add obj none).2 =
      (applyOps ops (NewSharedCollection T)).nextId ∧
    (((applyOps ops (NewSharedCollection T)).Add obj oid).1).nextId =
      ((applyOps ops (NewSharedCollection T)).nextId + 1) % uint64Mod ∧
    ((NewSharedCollection T).Add obj none).2 = 1 ∧
    (countAdds ops < uint64Mod - 1 →
      ((applyOps ops (NewSharedCollection T)).Add obj none).2 ≠ 0) := by
  refine ⟨rfl, rfl, ?_, rfl, ?_⟩
  · cases oid <;> rfl
  · intro hc
    rw [add_auto_snd, nextId_reachable]
    have hpos : 0 < uint64Mod := uint64Mod_pos
    have hlt : 1 + countAdds ops < uint64Mod := by omega
    rw [Nat.mod_eq_of_lt hlt]
    omega

/-- Witness for C6 on the concrete sequence `testOps` (two adds, one
remove): its add count is below the wrap point and the resulting
auto-assigned id (3) is nonzero. -/
theorem claim_C6_witness :
    countAdds testOps < uint64Mod - 1 ∧
    ((applyOps testOps (NewSharedCollection Nat)).Add 0 none).2 = 3 ∧
    ((applyOps testOps (NewSharedCollection Nat)).Add 0 none).2 ≠ 0 := by
  have hc : countAdds testOps < uint64Mod - 1 := by
    norm_num [countAdds, testOps, isAddOp, List.countP_cons, uint64Mod]
  refine ⟨hc, ?_, (claim_C6 Nat testOps 0 7 none).2.2.2.2 hc⟩
  norm_num [applyOps, applyOp, testOps, SharedCollection.Add, SharedCollection.Remove,
    NewSharedCollection, uint64Mod]

/-- Claim C9: `Add(value, id)` with an id already present silently
overwrites: it still returns the id, a subsequent `Get(id)` returns the new
value, and the auto-id counter is incremented (a `uint64` increment, i.e.
modulo 2^64) even though the explicit id was used. -/
theorem claim_C9 (T : Type) (c : SharedCollection T) (obj old : T) (i : Nat)
    (h : c.Get i = some old) :
    (c.Add obj (some i)).2 = i ∧
    ((c.Add obj (some i)).1).Get i = some obj ∧
    ((c.Add obj (some i)).1).nextId = (c.nextId + 1) % uint64Mod :=
  ⟨rfl, get_add_same c obj i, rfl⟩

/-- Witness for C9: id 5 is present (value 10) before the second `Add`,
which overwrites it with 20, returns 5, and bumps the counter. -/
theorem claim_C9_witness :
    (((NewSharedCollection Nat).Add 10 (some 5)).1).Get 5 = some 10 ∧
    (((((NewSharedCollection Nat).Add 10 (some 5)).1).Add 20 (some 5)).2 = 5 ∧
      (((((NewSharedCollection Nat).Add 10 (some 5)).1).Add 20 (some 5)).1).Get 5 = some 20 ∧
      (((((NewSharedCollection Nat).Add 10 (some 5)).1).Add 20 (some 5)).1).nextId =
        ((((NewSharedCollection Nat).Add 10 (some 5)).1).nextId + 1) % uint64Mod) :=
  ⟨rfl, claim_C9 Nat (((NewSharedCollection Nat).Add 10 (some 5)).1) 20 10 5 rfl⟩

/-- Claim C2: the proximity validation accepts exactly when the squared
distance between player and object is at most
`(player.Radius + buffer + objRadius)²`; equality is accepted, any strictly
greater squared distance is rejected. -/
theorem claim_C2 (player : Player) (objX objY objRadius buffer : ℚ) :
    validatePlayerCloseToObject player objX objY objRadius buffer = Except.ok () ↔
      (player.x - objX) * (player.x - objX) + (player.y - objY) * (player.y - objY) ≤
        (player.radius + buffer + objRadius) * (player.radius + buffer + objRadius) := by
  simp only [validatePlayerCloseToObject]
  split
  · next h =>
      constructor
      · intro hc
        exact absurd hc (by simp)
      · intro hle
        exact absurd hle (not_le.mpr h)
  · next h =>
      simpa using not_lt.mp h

/-- Claim C1: evaluation of `handleSporeConsumed` at a passing
self-originated claim (client id 1, claimed spore id 2, both spores
present, proximity holds). The handler does grow the player by the
mass-additive conversion, stamps the broadcast with the new radius and
broadcasts it — but it calls `Spores.Remove(senderId)` instead of
`Spores.Remove(sporeId)`: the claimed spore 2 is still present afterwards,
while the unrelated spore keyed by the sender's client id 1 has been
deleted. -/
theorem claim_C1_bug (mm : MassModel) :
    (handleSporeConsumed mm 1
        { name := "p", x := 0, y := 0, radius := 20, direction := 0, speed := 15 }
        ((((NewSharedCollection Spore).Add { x := 500, y := 500, radius := 6 } (some 1)).1).Add
          { x := 0, y := 0, radius := 5 } (some 2)).1
        1 { sporeId := 2, newRadius := 0 }).player.radius =
      nextRadius mm 20 (mm.radiusToMass 5) ∧
    (handleSporeConsumed mm 1
        { name := "p", x := 0, y := 0, radius := 20, direction := 0, speed := 15 }
        ((((NewSharedCollection Spore).Add { x := 500, y := 500, radius := 6 } (some 1)).1).Add
          { x := 0, y := 0, radius := 5 } (some 2)).1
        1 { sporeId := 2, newRadius := 0 }).broadcasts =
      [{ sporeId := 2, newRadius := nextRadius mm 20 (mm.radiusToMass 5) }] ∧
    ((handleSporeConsumed mm 1
        { name := "p", x := 0, y := 0, radius := 20, direction := 0, speed := 15 }
        ((((NewSharedCollection Spore).Add { x := 500, y := 500, radius := 6 } (some 1)).1).Add
          { x := 0, y := 0, radius := 5 } (some 2)).1
        1 { sporeId := 2, newRadius := 0 }).spores).Get 2 =
      some { x := 0, y := 0, radius := 5 } ∧
    ((handleSporeConsumed mm 1
        { name := "p", x := 0, y := 0, radius := 20, direction := 0, speed := 15 }
        ((((NewSharedCollection Spore).Add { x := 500, y := 500, radius := 6 } (some 1)).1).Add
          { x := 0, y := 0, radius := 5 } (some 2)).1
        1 { sporeId := 2, newRadius := 0 }).spores).Get 1 = none := by
  refine ⟨?_, ?_, ?_, ?_⟩ <;>
    norm_num [handleSporeConsumed, validatePlayerCloseToObject, NewSharedCollection,
      SharedCollection.Add, SharedCollection.Get, SharedCollection.Remove, nextRadius,
      List.find?, List.filter]

/-- Claim C3: for a self-originated peer-consumption claim whose target
exists, the claim is silently dropped — state unchanged, target not
removed, nothing sent or broadcast — whenever the actor's mass is at most
1.5 times the target's mass (so exactly 1.5 is rejected); and when the mass
margin is strict and the proximity test passes, the target is removed from
the shared player collection, the actor's radius grows by the target's full
mass (`nextRadius(radiusToMass(other.Radius))`), and the message stamped
with that new radius is broadcast. -/
theorem claim_C3 (mm : MassModel) (clientId : Nat) (player other : Player)
    (players : SharedCollection Player) (message : PlayerConsumedMsg)
    (hget : players.Get message.playerId = some other) :
    (mm.radiusToMass player.radius ≤ mm.radiusToMass other.radius * (3 / 2) →
      handlePlayerConsumed mm clientId player players clientId message =
        { player := player, players := players, sends := [], broadcasts := [],
          respawn := false }) ∧
    (mm.radiusToMass other.radius * (3 / 2) < mm.radiusToMass player.radius →
      validatePlayerCloseToObject player other.x other.y other.radius 10 = Except.ok () →
      handlePlayerConsumed mm clientId player players clientId message =
        { player := { player with radius := nextRadius mm player.radius (mm.radiusToMass other.radius) },
          players := players.Remove message.playerId,
          sends := [],
          broadcasts := [{ message with
            newRadius := nextRadius mm player.radius (mm.radiusToMass other.radius) }],
          respawn := false }) := by
  constructor
  · intro hmass
    simp [handlePlayerConsumed, hget, hmass]
  · intro hmass hclose
    simp [handlePlayerConsumed, hget, hclose, not_le.mpr hmass]

/-- Witness for C3 under `testMassModel` and `testPlayers`: an actor of
radius 2 (mass 4 ≤ 4·3/2) is rejected with the state untouched, and an
actor of radius 6 (mass 36 > 6) standing on the target consumes it, growing
to radius `36 + 4 = 40` (in the test model `massToRadius` is the identity). -/
theorem claim_C3_witness :
    testPlayers.Get 2 = some testTarget ∧
    (testMassModel.radiusToMass 2 ≤ testMassModel.radiusToMass testTarget.radius * (3 / 2) ∧
      handlePlayerConsumed testMassModel 1
          { name := "a", x := 0, y := 0, radius := 2, direction := 0, speed := 15 }
          testPlayers 1 { playerId := 2, newRadius := 0 } =
        { player := { name := "a", x := 0, y := 0, radius := 2, direction := 0, speed := 15 },
          players := testPlayers, sends := [], broadcasts := [], respawn := false }) ∧
    (testMassModel.radiusToMass testTarget.radius * (3 / 2) < testMassModel.radiusToMass 6 ∧
      validatePlayerCloseToObject
          { name := "a", x := 0, y := 0, radius := 6, direction := 0, speed := 15 }
          testTarget.x testTarget.y testTarget.radius 10 = Except.ok () ∧
      handlePlayerConsumed testMassModel 1
          { name := "a", x := 0, y := 0, radius := 6, direction := 0, speed := 15 }
          testPlayers 1 { playerId := 2, newRadius := 0 } =
        { player := { name := "a", x := 0, y := 0, radius := 40, direction := 0, speed := 15 },
          players := testPlayers.Remove 2, sends := [],
          broadcasts := [{ playerId := 2, newRadius := 40 }], respawn := false }) := by
  have hget : testPlayers.Get 2 = some testTarget := by
    simp [testPlayers, SharedCollection.Add, SharedCollection.Get, NewSharedCollection,
      List.find?]
  have hclose : validatePlayerCloseToObject
      { name := "a", x := 0, y := 0, radius := 6, direction := 0, speed := 15 }
      testTarget.x testTarget.y testTarget.radius 10 = Except.ok () := by
    norm_num [validatePlayerCloseToObject, testTarget]
  refine ⟨hget, ⟨by norm_num [testMassModel, testTarget], ?_⟩,
    ⟨by norm_num [testMassModel, testTarget], hclose, ?_⟩⟩
  · exact (claim_C3 testMassModel 1
      { name := "a", x := 0, y := 0, radius := 2, direction := 0, speed := 15 }
      testTarget testPlayers { playerId := 2, newRadius := 0 } hget).1
      (by norm_num [testMassModel, testTarget])
  · have h := (claim_C3 testMassModel 1
      { name := "a", x := 0, y := 0, radius := 6, direction := 0, speed := 15 }
      testTarget testPlayers { playerId := 2, newRadius := 0 } hget).2
      (by norm_num [testMassModel, testTarget]) hclose
    rw [h]
    norm_num [nextRadius, testMassModel, testTarget]

/-- Claim C4: whenever `SpawnCoords` returns a coordinate, every circle in
the avoid-collections present at the call has squared distance from the
returned point strictly greater than `(radius + that circle's radius)²` —
the returned circle overlaps nothing by the `distSq ≤ (r+other)²` test.
(The call inspects the collections only through the read-only snapshot
traversal `ForEach`, so it has no effect on them; the embedding is
accordingly a pure function of the collections.) -/
theorem claim_C4 (fuel : Nat) (draws : Nat → ℚ) (radius x y : ℚ)
    (playersToAvoid : Option (SharedCollection Player))
    (sporesToAvoid : Option (SharedCollection Spore))
    (h : SpawnCoords fuel draws radius playersToAvoid sporesToAvoid = some (x, y)) :
    (∀ c ∈ playersToAvoid, ∀ entry ∈ c.objectsMap,
      (entry.2.x - x) * (entry.2.x - x) + (entry.2.y - y) * (entry.2.y - y) >
        (radius + entry.2.radius) * (radius + entry.2.radius)) ∧
    (∀ c ∈ sporesToAvoid, ∀ entry ∈ c.objectsMap,
      (entry.2.x - x) * (entry.2.x - x) + (entry.2.y - y) * (entry.2.y - y) >
        (radius + entry.2.radius) * (radius + entry.2.radius)) := by
  obtain ⟨hp, hs⟩ := spawnCoordsLoop_not_tooClose draws radius playersToAvoid sporesToAvoid
    fuel 0 3000 0 x y h
  constructor
  · intro c hc entry hentry
    cases playersToAvoid with
    | none => cases hc
    | some col =>
        cases hc
        simp only [isTooClose] at hp
        have := any_eq_false_forall _ _ hp entry hentry
        simp only [getPlayerPosition, getPlayerRadius, decide_eq_false_iff_not, not_le] at this
        linarith
  · intro c hc entry hentry
    cases sporesToAvoid with
    | none => cases hc
    | some col =>
        cases hc
        simp only [isTooClose] at hs
        have := any_eq_false_forall _ _ hs entry hentry
        simp only [getSporePosition, getSporeRadius, decide_eq_false_iff_not, not_le] at this
        linarith

/-- Witness for C4: with the constant random stream 1/2 the first candidate
is the origin, which the single avoid-circle (radius 1 at (100, 100))
does not block for a spawn radius of 1, so `SpawnCoords` returns (0, 0) and
the separation bound holds for the one entry. -/
theorem claim_C4_witness :
    SpawnCoords 1 testDraws 1 (some testAvoidPlayers) none = some (0, 0) ∧
    (∀ c ∈ some testAvoidPlayers, ∀ entry ∈ c.objectsMap,
      (entry.2.x - 0) * (entry.2.x - 0) + (entry.2.y - 0) * (entry.2.y - 0) >
        ((1 : ℚ) + entry.2.radius) * (1 + entry.2.radius)) := by
  have heq : SpawnCoords 1 testDraws 1 (some testAvoidPlayers) none = some (0, 0) := by
    norm_num [SpawnCoords, spawnCoordsLoop, isTooClose, testDraws, testAvoidPlayers,
      NewSharedCollection, SharedCollection.Add, getPlayerPosition, getPlayerRadius,
      List.any, List.filter]
  exact ⟨heq, (claim_C4 1 testDraws 1 0 0 (some testAvoidPlayers) none heq).1⟩

/-- Claim C7: every failing self-originated login request — unknown user
(lookup error), environment-load failure, or password-hash verification
failure — sends exactly one rejection response, and that response is the
same `Incorrect username or password` deny in all three cases, so the
client cannot tell the causes apart; a successful login sends the ok
acknowledgement instead. -/
theorem claim_C7 (world : CredentialWorld) (clientId : Nat) (username password : String) :
    (world.getUserByUsername (toLowerStr username) = none →
      effectSends (handleLoginRequest world clientId clientId username password) =
        [Msg.denyResponse "Incorrect username or password"]) ∧
    (∀ u, world.getUserByUsername (toLowerStr username) = some u →
      world.envLoadOk = false →
      effectSends (handleLoginRequest world clientId clientId username password) =
        [Msg.denyResponse "Incorrect username or password"]) ∧
    (∀ u, world.getUserByUsername (toLowerStr username) = some u →
      world.envLoadOk = true →
      world.verify u.password (password ++ world.pepper) = false →
      effectSends (handleLoginRequest world clientId clientId username password) =
        [Msg.denyResponse "Incorrect username or password"]) ∧
    (∀ u, world.getUserByUsername (toLowerStr username) = some u →
      world.envLoadOk = true →
      world.verify u.password (password ++ world.pepper) = true →
      effectSends (handleLoginRequest world clientId clientId username password) =
        [Msg.okResponse]) := by
  refine ⟨?_, ?_, ?_, ?_⟩
  · intro h
    simp [handleLoginRequest, effectSends, h]
  · intro u hu henv
    simp [handleLoginRequest, effectSends, hu, henv]
  · intro u hu henv hverify
    simp [handleLoginRequest, effectSends, hu, henv, hverify]
  · intro u hu henv hverify
    simp [handleLoginRequest, effectSends, hu, henv, hverify]

/-- Witness for C7 on `testWorld`: the unknown user `bob`, an
environment-load failure for `alice`, and a wrong password for `alice` all
produce the identical single generic deny; the right password produces the
ok response. -/
theorem claim_C7_witness :
    testWorld.getUserByUsername (toLowerStr "bob") = none ∧
    effectSends (handleLoginRequest testWorld 1 1 "bob" "secret99") =
      [Msg.denyResponse "Incorrect username or password"] ∧
    effectSends (handleLoginRequest { testWorld with envLoadOk := false } 1 1 "alice" "secret99") =
      [Msg.denyResponse "Incorrect username or password"] ∧
    effectSends (handleLoginRequest testWorld 1 1 "alice" "wrong") =
      [Msg.denyResponse "Incorrect username or password"] ∧
    effectSends (handleLoginRequest testWorld 1 1 "alice" "secret99") = [Msg.okResponse] := by
  have hbob : testWorld.getUserByUsername (toLowerStr "bob") = none := by decide
  have halice : testWorld.getUserByUsername (toLowerStr "alice") = some { password := "H" } := by
    decide
  have halice2 : ({ testWorld with envLoadOk := false } : CredentialWorld).getUserByUsername
      (toLowerStr "alice") = some { password := "H" } := by decide
  refine ⟨hbob, ?_, ?_, ?_, ?_⟩
  · exact (claim_C7 testWorld 1 "bob" "secret99").1 hbob
  · exact (claim_C7 { testWorld with envLoadOk := false } 1 "alice" "secret99").2.1
      { password := "H" } halice2 rfl
  · exact (claim_C7 testWorld 1 "alice" "wrong").2.2.1 { password := "H" } halice rfl (by decide)
  · exact (claim_C7 testWorld 1 "alice" "secret99").2.2.2 { password := "H" } halice rfl
      (by decide)

/-- Claim C8: a self-originated registration request is denied with the
specific validation reason exactly under the claimed shape conditions —
the username validator accepts iff the name is non-empty, at most 20 bytes
long and free of leading/trailing whitespace, the password validator
accepts iff the password matches its confirmation and is at least 8 bytes
long (Go `len()`), and a
validator error is echoed as `Invalid username: …` / `Invalid password: …`;
past validation, an existing username or an environment/hash/persistence
failure is denied with a message that names no internals (`User already
exists`, resp. the fixed generic failure response); and a request passing
everything gets the ok acknowledgement. -/
theorem claim_C8 (world : CredentialWorld) (clientId : Nat) (u p pc : String) :
    (validateUserName u = Except.ok () ↔
      ¬(byteLen u = 0 ∨ 20 < byteLen u ∨ u ≠ trimStr u)) ∧
    (validatePassword p pc = Except.ok () ↔ ¬(p ≠ pc ∨ byteLen p < 8)) ∧
    (∀ e, validateUserName u = Except.error e →
      effectSends (handleRegisterRequest world clientId clientId u p pc) =
        [Msg.denyResponse ("Invalid username: " ++ e)]) ∧
    (∀ e, validateUserName u = Except.ok () → validatePassword p pc = Except.error e →
      effectSends (handleRegisterRequest world clientId clientId u p pc) =
        [Msg.denyResponse ("Invalid password: " ++ e)]) ∧
    (validateUserName u = Except.ok () → validatePassword p pc = Except.ok () →
      (world.getUserByUsername (toLowerStr u)).isSome = true →
      effectSends (handleRegisterRequest world clientId clientId u p pc) =
        [Msg.denyResponse "User already exists"]) ∧
    (validateUserName u = Except.ok () → validatePassword p pc = Except.ok () →
      (world.getUserByUsername (toLowerStr u)).isSome = false →
      (world.envLoadOk = false ∨ world.hashOk = false ∨ world.createOk = false) →
      effectSends (handleRegisterRequest world clientId clientId u p pc) =
        [genericRegisterFail]) ∧
    (validateUserName u = Except.ok () → validatePassword p pc = Except.ok () →
      (world.getUserByUsername (toLowerStr u)).isSome = false →
      world.envLoadOk = true → world.hashOk = true → world.createOk = true →
      effectSends (handleRegisterRequest world clientId clientId u p pc) =
        [Msg.okResponse]) := by
  refine ⟨?_, ?_, ?_, ?_, ?_, ?_, ?_⟩
  · constructor
    · intro hok
      unfold validateUserName at hok
      split_ifs at hok with h1 h2 h3
      push_neg
      exact ⟨by omega, by omega, not_not.mp h3⟩
    · intro hcond
      push_neg at hcond
      obtain ⟨hlen, hle, htrim⟩ := hcond
      unfold validateUserName
      rw [if_neg (by omega), if_neg (by omega), if_neg (not_not.mpr htrim)]
  · constructor
    · intro hok
      unfold validatePassword at hok
      split_ifs at hok with h1 h2
      push_neg
      exact ⟨not_not.mp h1, by omega⟩
    · intro hcond
      push_neg at hcond
      obtain ⟨hmatch, hlen⟩ := hcond
      unfold validatePassword
      rw [if_neg (not_not.mpr hmatch), if_neg (by omega)]
  · intro e he
    simp [handleRegisterRequest, effectSends, he]
  · intro e hu hp
    simp [handleRegisterRequest, effectSends, hu, hp]
  · intro hu hp hexists
    simp [handleRegisterRequest, effectSends, hu, hp, hexists]
  · intro hu hp hexists hfail
    rcases hfail with henv | hhash | hcreate
    · simp [handleRegisterRequest, effectSends, hu, hp, hexists, henv]
    · by_cases henv : world.envLoadOk <;>
        simp [handleRegisterRequest, effectSends, hu, hp, hexists, henv, hhash]
    · by_cases henv : world.envLoadOk <;>
        by_cases hhash : world.hashOk <;>
          simp [handleRegisterRequest, effectSends, hu, hp, hexists, henv, hhash, hcreate]
  · intro hu hp hexists henv hhash hcreate
    simp [handleRegisterRequest, effectSends, hu, hp, hexists, henv, hhash, hcreate]

/-- Witness for C8 on `testWorld`: a whitespace-bearing username and a
short password are denied with the specific reasons, registering `alice`
again is denied as existing, a persistence failure is denied generically,
and a clean registration of `bob` is acknowledged. -/
theorem claim_C8_witness :
    effectSends (handleRegisterRequest testWorld 1 1 " a" "password1" "password1") =
      [Msg.denyResponse ("Invalid username: " ++ "leading or trailing whitespaces")] ∧
    effectSends (handleRegisterRequest testWorld 1 1 "bob" "short" "short") =
      [Msg.denyResponse ("Invalid password: " ++ "too short")] ∧
    effectSends (handleRegisterRequest testWorld 1 1 "alice" "password1" "password1") =
      [Msg.denyResponse "User already exists"] ∧
    effectSends (handleRegisterRequest { testWorld with createOk := false } 1 1 "bob"
        "password1" "password1") = [genericRegisterFail] ∧
    effectSends (handleRegisterRequest testWorld 1 1 "bob" "password1" "password1") =
      [Msg.okResponse] := by
  have hu1 : validateUserName " a" = Except.error "leading or trailing whitespaces" := by
    unfold validateUserName
    rw [if_neg (by decide), if_neg (by decide), if_pos (by decide)]
  have hu2 : validateUserName "bob" = Except.ok () := by
    unfold validateUserName
    rw [if_neg (by decide), if_neg (by decide), if_neg (by decide)]
  have hu3 : validateUserName "alice" = Except.ok () := by
    unfold validateUserName
    rw [if_neg (by decide), if_neg (by decide), if_neg (by decide)]
  have hp1 : validatePassword "short" "short" = Except.error "too short" := by
    unfold validatePassword
    rw [if_neg (by decide), if_pos (by decide)]
  have hp2 : validatePassword "password1" "password1" = Except.ok () := by
    unfold validatePassword
    rw [if_neg (by decide), if_neg (by decide)]
  refine ⟨?_, ?_, ?_, ?_, ?_⟩
  · exact (claim_C8 testWorld 1 " a" "password1" "password1").2.2.1
      "leading or trailing whitespaces" hu1
  · exact (claim_C8 testWorld 1 "bob" "short" "short").2.2.2.1 "too short" hu2 hp1
  · exact (claim_C8 testWorld 1 "alice" "password1" "password1").2.2.2.2.1 hu3 hp2 (by decide)
  · exact (claim_C8 { testWorld with createOk := false } 1 "bob" "password1"
      "password1").2.2.2.2.2.1 hu2 hp2 (by decide) (Or.inr (Or.inr rfl))
  · exact (claim_C8 testWorld 1 "bob" "password1" "password1").2.2.2.2.2.2 hu2 hp2
      (by decide) rfl rfl rfl

/-- Claim C10: in the Connected state a login or registration request whose
sender id differs from the session's own id produces no effect at all — no
response is sent, no credential lookup or creation is performed (the
effect trace is empty), and the handlers touch no state. -/
theorem claim_C10 (world : CredentialWorld) (clientId senderId : Nat)
    (username password passwordConfirmation : String) (h : senderId ≠ clientId) :
    handleLoginRequest world clientId senderId username password = [] ∧
    handleRegisterRequest world clientId senderId username password passwordConfirmation = [] := by
  constructor
  · simp [handleLoginRequest, h]
  · simp [handleRegisterRequest, h]

/-- Witness for C10: sender 2 on session 1 is ignored by both handlers. -/
theorem claim_C10_witness :
    (2 : Nat) ≠ 1 ∧
    handleLoginRequest testWorld 1 2 "alice" "secret99" = [] ∧
    handleRegisterRequest testWorld 1 2 "alice" "password1" "password1" = [] :=
  ⟨by decide, claim_C10 testWorld 1 2 "alice" "secret99" "password1" (by decide)⟩

end RadiusRumble
